import Mathlib

/-!
Verification development for the ddclient-rs voting API client.

Shallow embedding of the core of the library:
  * `src/errors.rs`  — the error taxonomy (`ApiError`, `ClientError`,
    `BadRequestError`);
  * `src/lib.rs`     — the response interpreter `handle_api_response`;
  * `src/rate.rs`    — rate-limit header parsing (`Rate::from_headers`);
  * `src/client.rs`  — the dispatcher's rate-state update, URI builders of
    the public voting operations, and `ClientBuilder::build`.

External collaborators (the reqwest transport, serde's body decoding of the
generic success type `T` and of `ApiErrorResponse`, and the reqwest URL
parser) are modelled as oracle parameters: the library treats them as black
boxes and the theorems quantify over them.  Everything the repository itself
defines (the status-code dispatch, the validation-code filter, the header
parsing arithmetic, URI construction, base-URL normalisation) is translated
concretely from the source.
-/

/-- Embeds `BadRequestError` from `src/errors.rs` (lines 63–81): the closed
enumeration of domain validation failure codes. -/
inductive BadRequestError where
  | InvalidData
  | MissingChoices
  | ChoiceTooLong
  | TooManyChoices
  | ChoiceRequired
  | BallotRequired
  | VoterIDTooLong
  | InvalidVoterID
deriving DecidableEq, Repr

/-- Embeds `ClientError` from `src/errors.rs` (lines 51–60).  The
`reqwest::Error` payload of `HttpRequestError` is modelled by its
human-readable description string. -/
inductive ClientError where
  | BadGateway
  | HttpRequestError (err : String)
  | ServiceUnavailable
deriving DecidableEq, Repr

/-- Embeds `ApiError` from `src/errors.rs` (lines 16–44): the unified
top-level error type returned by every public operation. -/
inductive ApiError where
  | BadRequest (errors : List BadRequestError)
  | Unauthorized
  | NotFound
  | Forbidden
  | InternalServerError (msg : String)
  | MethodNotAllowed
  | TooManyRequests
  | Other (msg : String)
  | Client (err : ClientError)
deriving DecidableEq, Repr

/-- Embeds the private struct `ApiErrorResponse` from `src/lib.rs`
(lines 119–124): the JSON shape a 400 body is decoded into. -/
structure ApiErrorResponse where
  code : Int
  message : String
  errors : List String
deriving DecidableEq, Repr

/-- Embeds the composition
`serde_json::from_str::<BadRequestError>(&format!("\x7b:?\x7d", err))`
from `src/lib.rs` line 145 (the quoting of `err` as a JSON string followed
by serde's derived deserializer for `BadRequestError`).  The derived
`Deserialize` for a unit-variant enum with no `serde(rename)` attributes
accepts exactly the Rust variant identifiers, so the recognized strings are
the camel-case variant names — not the `thiserror` display strings such as
"Invalid data", which only feed the `Display` impl.  (For strings free of
JSON escape sequences — every string considered in this development — the
quote-then-parse composition is exactly this name match.) -/
def parseBadRequestError (s : String) : Option BadRequestError :=
  if s = "InvalidData" then some .InvalidData
  else if s = "MissingChoices" then some .MissingChoices
  else if s = "ChoiceTooLong" then some .ChoiceTooLong
  else if s = "TooManyChoices" then some .TooManyChoices
  else if s = "ChoiceRequired" then some .ChoiceRequired
  else if s = "BallotRequired" then some .BallotRequired
  else if s = "VoterIDTooLong" then some .VoterIDTooLong
  else if s = "InvalidVoterID" then some .InvalidVoterID
  else none

/-- Model of a raw HTTP response as `handle_api_response` consumes it: the
numeric status code, the response headers (name/value pairs), and the body.
`body = none` models a body whose bytes could not be read
(`response.text().await` erroring), in which case `unwrap_or_default()`
yields the empty string. -/
structure HttpResponse where
  status : Nat
  headers : List (String × String)
  body : Option String
deriving DecidableEq, Repr

/-- Models `response.text().await.unwrap_or_default()`: the body text
verbatim, or the empty string when the body is unreadable. -/
def HttpResponse.text (r : HttpResponse) : String :=
  r.body.getD ""

/-- Embeds `handle_api_response` from `src/lib.rs` (lines 126–163).

`decodeT` is the oracle for `response.json::<T>()` (serde decoding of the
body as the expected success type; an error carries the reqwest error
description), and `decodeErrResp` the oracle for
`response.json::<ApiErrorResponse>()` in the 400 arm.  The `match` on
`response.status()` in the source is a first-match dispatch on disjoint
status-code literals, rendered here as an if-chain in the source's arm
order. -/
def handle_api_response {T : Type} (decodeT : Option String → Except String T)
    (decodeErrResp : Option String → Option ApiErrorResponse)
    (r : HttpResponse) : Except ApiError T :=
  if r.status = 200 then
    match decodeT r.body with
    | .ok v => .ok v
    | .error err => .error (.Client (.HttpRequestError err))
  else if r.status = 404 then .error .NotFound
  else if r.status = 401 then .error .Unauthorized
  else if r.status = 403 then .error .Forbidden
  else if r.status = 429 then .error .TooManyRequests
  else if r.status = 405 then .error .MethodNotAllowed
  else if r.status = 400 then
    match decodeErrResp r.body with
    | some error_resp =>
        .error (.BadRequest (error_resp.errors.filterMap parseBadRequestError))
    | none => .error (.BadRequest [])
  else if r.status = 503 then .error (.Client .ServiceUnavailable)
  else if r.status = 502 then .error (.Client .BadGateway)
  else if r.status = 500 then .error (.InternalServerError r.text)
  else .error (.Other r.text)

/-- Embeds the header-name constant `HEADER_RATE_LIMIT` from `src/rate.rs`. -/
def HEADER_RATE_LIMIT : String := "X-RateLimit-Limit"

/-- Embeds the header-name constant `HEADER_RATE_REMAINING` from `src/rate.rs`. -/
def HEADER_RATE_REMAINING : String := "X-RateLimit-Remaining"

/-- Embeds the header-name constant `HEADER_RATE_RESET` from `src/rate.rs`. -/
def HEADER_RATE_RESET : String := "X-RateLimit-Reset"

/-- Embeds the header-name constant `HEADER_RATE_RETRY` from `src/rate.rs`. -/
def HEADER_RATE_RETRY : String := "Retry-After"

/-- Embeds `Rate` from `src/rate.rs` (lines 21–27).  `limit`/`remaining` are
`u32` and `reset`/`retry` are `u64` in the source; both are modelled as `Nat`
with the range enforced where the values are parsed. -/
structure Rate where
  limit : Nat
  remaining : Nat
  reset : Nat
  retry : Nat
deriving DecidableEq, Repr

/-- Models ASCII lower-casing of one character (header names are ASCII). -/
def asciiLower (c : Char) : Char :=
  if 'A' ≤ c ∧ c ≤ 'Z' then Char.ofNat (c.toNat + 32) else c

/-- Models case-insensitive equality of header names. -/
def lowerEq (a b : String) : Bool :=
  a.data.map asciiLower = b.data.map asciiLower

/-- Models `reqwest::HeaderMap::get`: header-name lookup is
case-insensitive (`HeaderMap` stores names lower-cased), returning the first
value whose name matches. -/
def headerLookup (headers : List (String × String)) (name : String) :
    Option String :=
  (headers.find? (fun p => lowerEq p.1 name)).map Prod.snd

/-- Abbreviates the number of values of Rust's `u32`. -/
def u32Bound : Nat := 2 ^ 32

/-- Abbreviates the number of values of Rust's `u64`. -/
def u64Bound : Nat := 2 ^ 64

/-- Models the digit run of Rust's unsigned-integer `FromStr`: every
character must be a decimal digit and there must be at least one. -/
def parseDigits : List Char → Option Nat
  | [] => none
  | cs => cs.foldlM (fun acc c => if c.isDigit then
            some (acc * 10 + (c.toNat - '0'.toNat)) else none) 0

/-- Models `str::parse::<uN>()` for an unsigned integer type whose values
are the naturals below `bound` (so `bound = 2^32` gives `u32`, `2^64` gives
`u64`): an optional leading `+` sign, then decimal digits, rejecting
overflow. -/
def parseUInt (bound : Nat) (s : String) : Option Nat :=
  let digits := match s.data with
    | '+' :: rest => parseDigits rest
    | ds => parseDigits ds
  digits.bind (fun n => if n < bound then some n else none)

/-- Embeds `fetch_header` from `src/rate.rs` (lines 49–54): look the header
up and parse its value as the numeric type, `None` on any failure.  (The
source's `to_str().ok()?` step cannot fail here because header values are
modelled as strings.) -/
def fetch_header (headers : List (String × String)) (bound : Nat)
    (header : String) : Option Nat :=
  (headerLookup headers header).bind (parseUInt bound)

/-- Embeds `Rate::from_headers` from `src/rate.rs` (lines 30–46).  `now` is
the value of `SystemTime::now().duration_since(UNIX_EPOCH)` in whole epoch
seconds at the moment of parsing (the clock is external); `reset`/`retry`
are `now` plus the header's delta, exactly as `(now + Duration::from_secs
(delta)).as_secs()` computes them (the delta being integral, the truncation
to seconds commutes with the addition). -/
def Rate.from_headers (now : Nat) (headers : List (String × String)) :
    Option Rate := do
  let limit ← fetch_header headers u32Bound HEADER_RATE_LIMIT
  let remaining ← fetch_header headers u32Bound HEADER_RATE_REMAINING
  let reset_secs ← fetch_header headers u64Bound HEADER_RATE_RESET
  let retry_secs ← fetch_header headers u64Bound HEADER_RATE_RETRY
  some ⟨limit, remaining, now + reset_secs, now + retry_secs⟩

/-- Embeds the state of a `Client` from `src/client.rs` (lines 67–72): the
bearer token, the normalised base URL, and the contents of the
`Arc<Mutex<Option<Rate>>>` rate cell.  The reqwest client handle carries no
state the library observes and is omitted. -/
structure Client where
  token : String
  api_url : String
  rate : Option Rate
deriving DecidableEq, Repr

/-- Embeds `Client::get_rate` from `src/client.rs` (lines 151–154): lock the
cell and return a clone of its contents. -/
def Client.get_rate (c : Client) : Option Rate :=
  c.rate

/-- Embeds the URL formation of `Client::request` from `src/client.rs`
line 162: `format!("\x7b\x7d\x7b\x7d", self.api_url, path)`. -/
def Client.requestUrl (c : Client) (path : String) : String :=
  c.api_url ++ path

/-- Embeds the observable state effect of `Client::request` from
`src/client.rs` (lines 176–188).  `transport` is the result of
`request.send().await` after `map_err` (the transport is external): on `Ok
(response)` the source parses the response headers and assigns the result
into the rate cell wholesale; on `Err` the `if let Ok` guard skips the
update.  Returns the propagated result paired with the client's new
state. -/
def Client.request (c : Client) (now : Nat)
    (transport : Except ClientError HttpResponse) :
    Except ClientError HttpResponse × Client :=
  match transport with
  | .ok response => (.ok response, { c with rate := Rate.from_headers now response.headers })
  | .error e => (.error e, c)

/-- Models the UTF-8 encoding of one scalar value as its byte sequence
(Rust strings are UTF-8; `url_escape` operates on the bytes). -/
def utf8Bytes (c : Char) : List Nat :=
  if c.toNat < 0x80 then [c.toNat]
  else if c.toNat < 0x800 then [0xC0 + c.toNat / 64, 0x80 + c.toNat % 64]
  else if c.toNat < 0x10000 then
    [0xE0 + c.toNat / 4096, 0x80 + c.toNat / 64 % 64, 0x80 + c.toNat % 64]
  else
    [0xF0 + c.toNat / 262144, 0x80 + c.toNat / 4096 % 64,
      0x80 + c.toNat / 64 % 64, 0x80 + c.toNat % 64]

/-- Models a string's UTF-8 byte sequence. -/
def strBytes (s : String) : List Nat :=
  s.data.flatMap utf8Bytes

/-- Models the set of bytes percent-encoded by `url_escape::encode_path`:
the WHATWG path percent-encode set (C0 controls and DEL, space, `"`, `<`,
`>`, the backquote, `#`, `?`, `\x7b`, `\x7d`) together with every
non-ASCII byte, which `percent-encoding` always encodes.  Note that `/`
(byte 0x2F) is NOT in this set. -/
def inPathSet (b : Nat) : Bool :=
  b < 0x20 || b = 0x7f || 0x80 ≤ b ||
    b = 0x20 || b = 0x22 || b = 0x3c || b = 0x3e || b = 0x60 ||
    b = 0x23 || b = 0x3f || b = 0x7b || b = 0x7d

/-- Models one uppercase hexadecimal digit, as `percent-encoding` emits. -/
def hexDigitChar (n : Nat) : Char :=
  if n < 10 then Char.ofNat ('0'.toNat + n)
  else Char.ofNat ('A'.toNat + (n - 10))

/-- Models the `%XX` escape for one byte. -/
def percentEncodeByte (b : Nat) : List Char :=
  ['%', hexDigitChar (b / 16), hexDigitChar (b % 16)]

/-- Embeds `url_escape::encode_path`: each byte of the input that lies in
the path percent-encode set becomes `%XX`; every other byte passes through
verbatim. -/
def encode_path (s : String) : String :=
  ⟨(strBytes s).flatMap
    (fun b => if inPathSet b then percentEncodeByte b else [Char.ofNat b])⟩

/-- Embeds `url_escape::encode_path_to_string(s, &mut out)`: appends the
path-encoded form of `s` to the output string. -/
def encode_path_to_string (s : String) (out : String) : String :=
  out ++ encode_path s

/-- Embeds the URI construction of `Client::get_voting` from
`src/client.rs` (lines 222–224); `Client::delete_voting` builds the
identical URI. -/
def get_voting_uri (id : String) : String :=
  encode_path_to_string id "v1/votings/"

/-- Embeds the URI construction of `Client::set_choice` from
`src/client.rs` (lines 275–277). -/
def set_choice_uri (voting_id : String) : String :=
  encode_path_to_string voting_id "v1/votings/" ++ "/choices"

/-- Embeds the URI construction of `Client::vote` from `src/client.rs`
(lines 328–331); `Client::unvote` and `Client::get_ballot` build the
identical URI. -/
def vote_uri (voting_id voter_id : String) : String :=
  encode_path_to_string voter_id
    (encode_path_to_string voting_id "v1/votings/" ++ "/ballots/")

/-- Embeds the URI construction of `Client::get_voting_results` from
`src/client.rs` (lines 381–383). -/
def get_voting_results_uri (voting_id : String) : String :=
  encode_path_to_string voting_id "v1/votings/" ++ "/results"

/-- Embeds the constant `DEFAULT_BASE_URL` from `src/lib.rs` line 74. -/
def DEFAULT_BASE_URL : String := "https://api.directdecisions.com"

/-- Embeds the configuration state of `ClientBuilder` from `src/client.rs`
(lines 407–411); the optional custom reqwest client carries no state the
library observes and is omitted. -/
structure ClientBuilder where
  token : String
  api_url : Option String
deriving DecidableEq, Repr

/-- Models Rust's `str::ends_with(char)`: the string's last character
equals the given one. -/
def endsWithChar (s : String) (c : Char) : Bool :=
  s.data.getLast? = some c

/-- Embeds `ClientBuilder::build` from `src/client.rs` (lines 469–491).
`urlParseOk` is the oracle for `reqwest::Url::parse(&url).is_ok()` (the URL
parser is external); the source's `.expect("Invalid API URL")` panic on a
parse failure is modelled as the `none` result, every normal return as
`some`.  After the URL is chosen, a trailing `/` is appended unless already
present, and the rate cell starts out `None`. -/
def ClientBuilder.build (urlParseOk : String → Bool) (b : ClientBuilder) :
    Option Client :=
  match b.api_url with
  | some url =>
      if urlParseOk url then
        some ⟨b.token,
          if endsWithChar url '/' then url else url.push '/', none⟩
      else none
  | none =>
      some ⟨b.token,
        if endsWithChar DEFAULT_BASE_URL '/' then DEFAULT_BASE_URL
        else DEFAULT_BASE_URL.push '/', none⟩

/-! Helper lemmas shared by the theorems below. -/

/-- Helper: `Char.ofNat` of a codepoint below the surrogate range keeps its
numeric value. -/
theorem toNat_ofNat_of_lt {n : Nat} (h : n < 0xd800) : (Char.ofNat n).toNat = n := by
  unfold Char.ofNat
  rw [dif_pos (Or.inl h)]
  rfl

/-- Helper: every character's scalar value lies below `0x110000`. -/
theorem char_toNat_lt (c : Char) : c.toNat < 0x110000 := by
  rcases c.valid with h | ⟨_, h2⟩
  · exact Nat.lt_trans h (by norm_num)
  · exact h2

/-- Helper: `utf8Bytes` only produces bytes. -/
theorem utf8Bytes_lt_256 (c : Char) : ∀ b ∈ utf8Bytes c, b < 256 := by
  intro b hb
  have hval := char_toNat_lt c
  unfold utf8Bytes at hb
  split_ifs at hb <;> simp at hb <;> omega

/-- Helper: `strBytes` only produces bytes. -/
theorem strBytes_lt_256 (s : String) : ∀ b ∈ strBytes s, b < 256 := by
  intro b hb
  rw [strBytes, List.mem_flatMap] at hb
  obtain ⟨c, _, hbc⟩ := hb
  exact utf8Bytes_lt_256 c b hbc

/-- Helper: a byte outside the path percent-encode set is printable ASCII. -/
theorem inPathSet_false_bounds {b : Nat} (h : inPathSet b = false) :
    0x20 < b ∧ b < 0x7f := by
  simp [inPathSet] at h
  omega

/-- Helper: an ASCII byte UTF-8-encodes to itself. -/
theorem utf8Bytes_ascii {b : Nat} (h : b < 0x80) :
    utf8Bytes (Char.ofNat b) = [b] := by
  have ht : (Char.ofNat b).toNat = b := toNat_ofNat_of_lt (by omega)
  unfold utf8Bytes
  rw [ht, if_pos h]

/-- Helper: hexadecimal digit characters are outside the path
percent-encode set. -/
theorem inPathSet_hexDigitChar {n : Nat} (h : n < 16) :
    inPathSet (hexDigitChar n).toNat = false := by
  have h0 : ('0'.toNat : Nat) = 48 := rfl
  have hA : ('A'.toNat : Nat) = 65 := rfl
  unfold hexDigitChar
  split_ifs with h10
  · rw [toNat_ofNat_of_lt (by omega)]
    simp [inPathSet]
    omega
  · rw [toNat_ofNat_of_lt (by omega)]
    simp [inPathSet]
    omega

/-- Oracle used by witnesses: a success-type decoder that always fails. -/
def decodeTFail : Option String → Except String Unit :=
  fun _ => .error "error decoding response body"

/-- Oracle used by witnesses: a success-type decoder that always succeeds. -/
def decodeTOk : Option String → Except String Unit :=
  fun _ => .ok ()

/-- Oracle used by witnesses: a 400-body decoder that always fails. -/
def decodeErrNone : Option String → Option ApiErrorResponse :=
  fun _ => none

/-- C1: for every HTTP response, `handle_api_response` yields exactly the
variant of the status-code table — 404 ↦ NotFound, 401 ↦ Unauthorized,
403 ↦ Forbidden, 429 ↦ TooManyRequests, 405 ↦ MethodNotAllowed,
500 ↦ InternalServerError with the body text verbatim (empty when the body
is unreadable), and any status outside the table ↦ Other with the body text
verbatim — for arbitrary decoding oracles and headers, i.e. depending only
on the status code (and, for 500/Other, the body). -/
theorem interpret_status_table {T : Type}
    (decodeT : Option String → Except String T)
    (decodeErrResp : Option String → Option ApiErrorResponse)
    (r : HttpResponse) :
    (r.status = 404 →
      handle_api_response decodeT decodeErrResp r = .error .NotFound) ∧
    (r.status = 401 →
      handle_api_response decodeT decodeErrResp r = .error .Unauthorized) ∧
    (r.status = 403 →
      handle_api_response decodeT decodeErrResp r = .error .Forbidden) ∧
    (r.status = 429 →
      handle_api_response decodeT decodeErrResp r = .error .TooManyRequests) ∧
    (r.status = 405 →
      handle_api_response decodeT decodeErrResp r = .error .MethodNotAllowed) ∧
    (r.status = 500 →
      handle_api_response decodeT decodeErrResp r =
        .error (.InternalServerError r.text)) ∧
    (r.status ∉ ([200, 400, 401, 403, 404, 405, 429, 500, 502, 503] : List Nat) →
      handle_api_response decodeT decodeErrResp r = .error (.Other r.text)) := by
  refine ⟨?_, ?_, ?_, ?_, ?_, ?_, ?_⟩ <;> intro h
  · simp [handle_api_response, h]
  · simp [handle_api_response, h]
  · simp [handle_api_response, h]
  · simp [handle_api_response, h]
  · simp [handle_api_response, h]
  · simp [handle_api_response, h]
  · simp only [List.mem_cons, List.not_mem_nil, or_false, not_or] at h
    obtain ⟨h200, h400, h401, h403, h404, h405, h429, h500, h502, h503⟩ := h
    simp [handle_api_response, h200, h400, h401, h403, h404, h405, h429,
      h500, h502, h503]

/-- Witness for C1 at concrete responses, one per table row. -/
theorem interpret_status_table_witness :
    handle_api_response decodeTFail decodeErrNone ⟨404, [], some "x"⟩ =
      .error .NotFound ∧
    handle_api_response decodeTFail decodeErrNone ⟨401, [], some "x"⟩ =
      .error .Unauthorized ∧
    handle_api_response decodeTFail decodeErrNone ⟨403, [], some "x"⟩ =
      .error .Forbidden ∧
    handle_api_response decodeTFail decodeErrNone ⟨429, [], some "x"⟩ =
      .error .TooManyRequests ∧
    handle_api_response decodeTFail decodeErrNone ⟨405, [], some "x"⟩ =
      .error .MethodNotAllowed ∧
    handle_api_response decodeTFail decodeErrNone ⟨500, [], some "boom"⟩ =
      .error (.InternalServerError "boom") ∧
    handle_api_response decodeTFail decodeErrNone ⟨500, [], none⟩ =
      .error (.InternalServerError "") ∧
    handle_api_response decodeTFail decodeErrNone ⟨418, [], some "teapot"⟩ =
      .error (.Other "teapot") :=
  ⟨(interpret_status_table decodeTFail decodeErrNone _).1 rfl,
   (interpret_status_table decodeTFail decodeErrNone _).2.1 rfl,
   (interpret_status_table decodeTFail decodeErrNone _).2.2.1 rfl,
   (interpret_status_table decodeTFail decodeErrNone _).2.2.2.1 rfl,
   (interpret_status_table decodeTFail decodeErrNone _).2.2.2.2.1 rfl,
   (interpret_status_table decodeTFail decodeErrNone _).2.2.2.2.2.1 rfl,
   (interpret_status_table decodeTFail decodeErrNone _).2.2.2.2.2.1 rfl,
   (interpret_status_table decodeTFail decodeErrNone _).2.2.2.2.2.2 (by decide)⟩

/-- C6: a 503 response is interpreted as the ServiceUnavailable transport
subkind and a 502 response as the BadGateway transport subkind, both wrapped
in the `Client` (transport) arm of `ApiError`, never as a taxonomy-level
variant. -/
theorem interpret_infra_transport {T : Type}
    (decodeT : Option String → Except String T)
    (decodeErrResp : Option String → Option ApiErrorResponse)
    (r : HttpResponse) :
    (r.status = 503 →
      handle_api_response decodeT decodeErrResp r =
        .error (.Client .ServiceUnavailable)) ∧
    (r.status = 502 →
      handle_api_response decodeT decodeErrResp r =
        .error (.Client .BadGateway)) := by
  constructor <;> intro h <;> simp [handle_api_response, h]

/-- Witness for C6 at concrete 503 and 502 responses. -/
theorem interpret_infra_transport_witness :
    handle_api_response decodeTFail decodeErrNone ⟨503, [], some ""⟩ =
      .error (.Client .ServiceUnavailable) ∧
    handle_api_response decodeTFail decodeErrNone ⟨502, [], some ""⟩ =
      .error (.Client .BadGateway) :=
  ⟨(interpret_infra_transport decodeTFail decodeErrNone _).1 rfl,
   (interpret_infra_transport decodeTFail decodeErrNone _).2 rfl⟩

/-- C7: a 200 response is decoded as the success type `T` and returned; a
decode failure is wrapped as the HttpRequestError transport subkind (the
decode-failure arm of `ClientError`), never as a taxonomy variant. -/
theorem interpret_ok_decode {T : Type}
    (decodeT : Option String → Except String T)
    (decodeErrResp : Option String → Option ApiErrorResponse)
    (r : HttpResponse) (h : r.status = 200) :
    (∀ v, decodeT r.body = .ok v →
      handle_api_response decodeT decodeErrResp r = .ok v) ∧
    (∀ e, decodeT r.body = .error e →
      handle_api_response decodeT decodeErrResp r =
        .error (.Client (.HttpRequestError e))) := by
  constructor <;> intro x hx <;> simp [handle_api_response, h, hx]

/-- Witness for C7 at a concrete 200 response, for a succeeding and a
failing decoder. -/
theorem interpret_ok_decode_witness :
    handle_api_response decodeTOk decodeErrNone ⟨200, [], some "payload"⟩ =
      .ok () ∧
    handle_api_response decodeTFail decodeErrNone ⟨200, [], some "payload"⟩ =
      .error (.Client (.HttpRequestError "error decoding response body")) :=
  ⟨(interpret_ok_decode decodeTOk decodeErrNone ⟨200, [], some "payload"⟩
      rfl).1 () rfl,
   (interpret_ok_decode decodeTFail decodeErrNone ⟨200, [], some "payload"⟩
      rfl).2 "error decoding response body" rfl⟩

/-- C5: a 400 response whose body fails to decode as `ApiErrorResponse`
yields `BadRequest []` — not a transport error — and this is the very same
result as for a 400 response whose body decodes but whose `errors` strings
contain zero recognized validation codes. -/
theorem interpret_bad_request_empty {T : Type}
    (decodeT : Option String → Except String T)
    (decodeErrResp decodeErrResp' : Option String → Option ApiErrorResponse)
    (r r' : HttpResponse) (er : ApiErrorResponse)
    (h : r.status = 400) (hdec : decodeErrResp r.body = none)
    (h' : r'.status = 400) (hdec' : decodeErrResp' r'.body = some er)
    (hzero : er.errors.filterMap parseBadRequestError = []) :
    handle_api_response decodeT decodeErrResp r = .error (.BadRequest []) ∧
    handle_api_response decodeT decodeErrResp r =
      handle_api_response decodeT decodeErrResp' r' := by
  constructor
  · simp [handle_api_response, h, hdec]
  · simp [handle_api_response, h, hdec, h', hdec', hzero]

/-- Oracle used by witnesses: a 400-body decoder returning a fixed decoded
error response whose `errors` list holds a single unrecognized string. -/
def decodeErrUnknown : Option String → Option ApiErrorResponse :=
  fun _ => some ⟨400, "Bad Request", ["some unknown error"]⟩

/-- Witness for C5: an unparseable 400 body and a parseable 400 body with
zero recognized codes produce the identical `BadRequest []`. -/
theorem interpret_bad_request_empty_witness :
    handle_api_response decodeTFail decodeErrNone ⟨400, [], some "garbage"⟩ =
      .error (.BadRequest []) ∧
    handle_api_response decodeTFail decodeErrNone ⟨400, [], some "garbage"⟩ =
      handle_api_response decodeTFail decodeErrUnknown ⟨400, [], some "ok"⟩ :=
  interpret_bad_request_empty decodeTFail decodeErrNone decodeErrUnknown
    ⟨400, [], some "garbage"⟩ ⟨400, [], some "ok"⟩
    ⟨400, "Bad Request", ["some unknown error"]⟩
    rfl rfl rfl rfl (by decide)

/-- Oracle modelling serde's successful decode of the concrete 400 body
with JSON fields code 400, message "Bad Request" and errors list
containing the single server domain string "Invalid data". -/
def decodeErrInvalidData : Option String → Option ApiErrorResponse :=
  fun _ => some ⟨400, "Bad Request", ["Invalid data"]⟩

/-- C2 (code bug): the repository's own test fixture — a 400 body whose
`errors` list is `["Invalid data"]` (src/errors.rs lines 150–153) — is
expected to map to `BadRequest [InvalidData]`, but the interpreter drops
the string and yields `BadRequest []`: the derived serde deserializer
matches the variant identifier `"InvalidData"`, not the display string
`"Invalid data"` the server (and the fixture) uses.  The fixture's
`assert_eq` passes only because the hand-written `PartialEq` for `ApiError`
(src/errors.rs lines 93–101) checks a one-directional subset, which the
empty list satisfies vacuously. -/
theorem interpret_validation_strings_dropped :
    handle_api_response decodeTFail decodeErrInvalidData
        ⟨400, [], some "body"⟩ = .error (.BadRequest []) ∧
    parseBadRequestError "Invalid data" = none ∧
    parseBadRequestError "InvalidData" = some .InvalidData ∧
    parseBadRequestError "Missing choices" = none ∧
    parseBadRequestError "MissingChoices" = some .MissingChoices := by
  refine ⟨?_, by decide, by decide, by decide, by decide⟩
  simp [handle_api_response, decodeErrInvalidData, decodeTFail]
  decide

/-- C3: whenever the transport call returns a response (any status), the
shared rate state is replaced wholesale with the parse of that response's
headers — in particular a response whose rate headers are absent leaves
`get_rate = none`, erasing any previously stored snapshot — whereas a
failed transport call (no response obtained) leaves the whole client state,
hence the rate state, unchanged. -/
theorem request_rate_state_update (c : Client) (now : Nat)
    (r : HttpResponse) (e : ClientError) :
    ((c.request now (.ok r)).2.get_rate = Rate.from_headers now r.headers) ∧
    ((c.request now (.error e)).2 = c) ∧
    (headerLookup r.headers HEADER_RATE_LIMIT = none →
      (c.request now (.ok r)).2.get_rate = none) := by
  refine ⟨rfl, rfl, fun hmissing => ?_⟩
  simp [Client.request, Client.get_rate, Rate.from_headers, fetch_header,
    hmissing]

/-- Witness for C3: a client holding a prior snapshot, hit by a response
with no headers, ends with no snapshot; a failed transport call leaves it
untouched. -/
theorem request_rate_state_update_witness :
    ((Client.mk "t" "https://api.directdecisions.com/"
        (some ⟨10, 5, 3, 4⟩)).request 77 (.ok ⟨200, [], some "b"⟩)).2.get_rate =
      Rate.from_headers 77 [] ∧
    ((Client.mk "t" "https://api.directdecisions.com/"
        (some ⟨10, 5, 3, 4⟩)).request 77
        (.error (.HttpRequestError "timeout"))).2 =
      Client.mk "t" "https://api.directdecisions.com/" (some ⟨10, 5, 3, 4⟩) ∧
    ((Client.mk "t" "https://api.directdecisions.com/"
        (some ⟨10, 5, 3, 4⟩)).request 77 (.ok ⟨200, [], some "b"⟩)).2.get_rate =
      none :=
  (fun h => ⟨h.1, h.2.1, h.2.2 rfl⟩)
    (request_rate_state_update
      (Client.mk "t" "https://api.directdecisions.com/" (some ⟨10, 5, 3, 4⟩))
      77 ⟨200, [], some "b"⟩ (.HttpRequestError "timeout"))

/-- C4: `Rate.from_headers` returns a snapshot exactly when all four rate
headers are present and parse as their numeric types; the snapshot carries
the parsed `limit` and `remaining` verbatim and `reset`/`retry` equal to
the current epoch time plus the respective header delta (not the raw header
value); if any of the four is missing or unparseable the result is
`none`. -/
theorem rate_from_headers_spec :
    (∀ (now : Nat) (headers : List (String × String)) (l m rs rt : Nat),
      fetch_header headers u32Bound HEADER_RATE_LIMIT = some l →
      fetch_header headers u32Bound HEADER_RATE_REMAINING = some m →
      fetch_header headers u64Bound HEADER_RATE_RESET = some rs →
      fetch_header headers u64Bound HEADER_RATE_RETRY = some rt →
      Rate.from_headers now headers = some ⟨l, m, now + rs, now + rt⟩) ∧
    (∀ (now : Nat) (headers : List (String × String)),
      (fetch_header headers u32Bound HEADER_RATE_LIMIT = none ∨
       fetch_header headers u32Bound HEADER_RATE_REMAINING = none ∨
       fetch_header headers u64Bound HEADER_RATE_RESET = none ∨
       fetch_header headers u64Bound HEADER_RATE_RETRY = none) →
      Rate.from_headers now headers = none) := by
  constructor
  · intro now headers l m rs rt h1 h2 h3 h4
    simp [Rate.from_headers, h1, h2, h3, h4]
  · intro now headers h
    cases h1 : fetch_header headers u32Bound HEADER_RATE_LIMIT with
    | none => simp [Rate.from_headers, h1]
    | some l =>
      cases h2 : fetch_header headers u32Bound HEADER_RATE_REMAINING with
      | none => simp [Rate.from_headers, h1, h2]
      | some m =>
        cases h3 : fetch_header headers u64Bound HEADER_RATE_RESET with
        | none => simp [Rate.from_headers, h1, h2, h3]
        | some rs =>
          cases h4 : fetch_header headers u64Bound HEADER_RATE_RETRY with
          | none => simp [Rate.from_headers, h1, h2, h3, h4]
          | some rt => simp_all

/-- Witness for C4 at the spec's concrete header fixture (limit 100,
remaining 50, reset 1000, retry 1000) and at a response missing all rate
headers. -/
theorem rate_from_headers_spec_witness :
    Rate.from_headers 1700000000
      [("X-RateLimit-Limit", "100"), ("X-RateLimit-Remaining", "50"),
       ("X-RateLimit-Reset", "1000"), ("Retry-After", "1000")] =
      some ⟨100, 50, 1700000000 + 1000, 1700000000 + 1000⟩ ∧
    Rate.from_headers 1700000000 [("Content-Type", "application/json")] =
      none :=
  ⟨rate_from_headers_spec.1 1700000000
      [("X-RateLimit-Limit", "100"), ("X-RateLimit-Remaining", "50"),
       ("X-RateLimit-Reset", "1000"), ("Retry-After", "1000")]
      100 50 1000 1000 rfl rfl rfl rfl,
   rate_from_headers_spec.2 1700000000
      [("Content-Type", "application/json")] (Or.inl rfl)⟩

/-- Helper: pushing a character makes the string end with it. -/
theorem endsWithChar_push (s : String) (c : Char) :
    endsWithChar (s.push c) c = true := by
  simp [endsWithChar, String.data_push]

/-- C9: every client the builder produces — from the default base URL or
from any accepted custom URL — stores a base URL ending in `/`, and the
dispatcher forms each request URL by concatenating that base URL with the
relative path. -/
theorem build_base_url_invariant (urlParseOk : String → Bool)
    (b : ClientBuilder) (c : Client) (path : String)
    (h : b.build urlParseOk = some c) :
    endsWithChar c.api_url '/' = true ∧
    c.requestUrl path = c.api_url ++ path := by
  refine ⟨?_, rfl⟩
  cases hb : b.api_url with
  | none =>
      simp only [ClientBuilder.build, hb] at h
      injection h with h
      subst h
      exact endsWithChar_push DEFAULT_BASE_URL '/'
  | some url =>
      simp only [ClientBuilder.build, hb] at h
      split_ifs at h with hok hslash
      · injection h with h
        subst h
        exact hslash
      · injection h with h
        subst h
        exact endsWithChar_push url '/'

/-- Witness for C9: a custom URL without a trailing separator is
normalised, and the request URL is the concatenation. -/
theorem build_base_url_invariant_witness :
    endsWithChar (Client.mk "t" "https://custom.example/" none).api_url '/' =
      true ∧
    (Client.mk "t" "https://custom.example/" none).requestUrl "v1/votings" =
      (Client.mk "t" "https://custom.example/" none).api_url ++ "v1/votings" :=
  build_base_url_invariant (fun _ => true)
    ⟨"t", some "https://custom.example"⟩
    (Client.mk "t" "https://custom.example/" none) "v1/votings" rfl

/-- C10: `ClientBuilder::build` panics (modelled as `none`) exactly for a
custom API URL the URL parser rejects; for every parseable custom URL and
for the default URL it returns a client normally. -/
theorem build_panics_iff_invalid_url (urlParseOk : String → Bool)
    (b : ClientBuilder) :
    b.build urlParseOk = none ↔
      ∃ url, b.api_url = some url ∧ urlParseOk url = false := by
  cases hb : b.api_url with
  | none => simp [ClientBuilder.build, hb]
  | some url =>
      cases hok : urlParseOk url with
      | true => simp [ClientBuilder.build, hb, hok]
      | false => simp [ClientBuilder.build, hb, hok]

/-- Helper: every character of `encode_path`'s output lies outside the path
percent-encode set. -/
theorem encode_path_data_not_in_set (id : String) :
    ∀ c ∈ (encode_path id).data, inPathSet c.toNat = false := by
  intro c hc
  have hc' : c ∈ (strBytes id).flatMap
      (fun b => if inPathSet b then percentEncodeByte b else [Char.ofNat b]) :=
    hc
  rw [List.mem_flatMap] at hc'
  obtain ⟨b, hb, hcb⟩ := hc'
  have hb256 : b < 256 := strBytes_lt_256 id b hb
  by_cases hset : inPathSet b
  · rw [if_pos hset] at hcb
    simp only [percentEncodeByte, List.mem_cons, List.not_mem_nil,
      or_false] at hcb
    rcases hcb with rfl | rfl | rfl
    · decide
    · exact inPathSet_hexDigitChar (by omega)
    · exact inPathSet_hexDigitChar (Nat.mod_lt _ (by omega))
  · rw [if_neg hset] at hcb
    simp only [List.mem_singleton] at hcb
    subst hcb
    have hbounds := inPathSet_false_bounds (by simpa using hset)
    rw [toNat_ofNat_of_lt (by omega)]
    simpa using hset

/-- C8 counterexample: the claim fails at the concrete identifier `"a/b"`
(it contains a slash, a character the claim says requires encoding): the
outgoing request path keeps the slash raw — `url_escape::encode_path` uses
the WHATWG path percent-encode set, which does not contain `/`. -/
theorem voting_id_slash_passes_raw :
    get_voting_uri "a/b" = "v1/votings/a/b" ∧
    get_voting_uri "a/b" ≠ "v1/votings/a%2Fb" ∧
    vote_uri "v" "a/b" = "v1/votings/v/ballots/a/b" :=
  ⟨by decide, by decide, by decide⟩

/-- C8 amended: every public voting operation percent-encodes its
caller-supplied identifiers with the path percent-encode set before
concatenating them into the request path — every character of the encoded
identifier lies outside that set (controls, space, quote, angle brackets,
backquote, hash, question mark, braces, non-ASCII all appear encoded) — but
`/` is not in the set, so a slash inside an identifier appears raw in the
path. -/
theorem voting_uris_path_encoded :
    (∀ id, get_voting_uri id = "v1/votings/" ++ encode_path id) ∧
    (∀ vid, set_choice_uri vid =
      "v1/votings/" ++ encode_path vid ++ "/choices") ∧
    (∀ vid wid, vote_uri vid wid =
      "v1/votings/" ++ encode_path vid ++ "/ballots/" ++ encode_path wid) ∧
    (∀ vid, get_voting_results_uri vid =
      "v1/votings/" ++ encode_path vid ++ "/results") ∧
    (∀ id, ∀ c ∈ (encode_path id).data, inPathSet c.toNat = false) ∧
    encode_path "a b" = "a%20b" ∧ inPathSet ('/'.toNat) = false :=
  ⟨fun _ => rfl, fun _ => rfl, fun _ _ => rfl, fun _ => rfl,
   encode_path_data_not_in_set, by decide, by decide⟩

/-- Witness for C8 amended at the concrete identifier with a space. -/
theorem voting_uris_path_encoded_witness :
    get_voting_uri "a b" = "v1/votings/" ++ encode_path "a b" ∧
    inPathSet ('%'.toNat) = false :=
  ⟨voting_uris_path_encoded.1 "a b",
   voting_uris_path_encoded.2.2.2.2.1 "a b" '%' (by decide)⟩
